import Mathlib

set_option maxRecDepth 4000

/-!
Shallow embedding of the packet protocol layer of `src/packet_handler.rs`
(feetech-servo-rs).  Machine bytes are modelled as `Nat`; `u16` arithmetic
wraps modulo 2^16 where the source relies on it.  Process termination
(`assert!` / `.expect(..)` in the source) is modelled by the `Except.error`
branch of an `Except String` result carrying the panic message, while
returned outcome values live in the `Except.ok` branch.  The serial port
(`crate::serial::Serial`, whose source file is not part of the packet layer)
is modelled from the spec's Transport contract.
-/

/-- Embedding of `compute_checksum` (packet_handler.rs, lines 6-16): the
accumulator is a `u16`, so every addition wraps modulo 65536; the final
`!checksum & 0xff` is bitwise complement on 16 bits (`65535 ^^^ acc`)
masked to the low byte. -/
def compute_checksum (id length instruction : Nat) (parameters : List Nat) : Nat :=
  let c0 : Nat := 0
  let c1 := (c0 + id) % 65536
  let c2 := (c1 + length) % 65536
  let c3 := (c2 + instruction) % 65536
  let c4 := parameters.foldl (fun acc param => (acc + param) % 65536) c3
  (65535 ^^^ c4) &&& 0xff

/-- Embedding of `enum Instruction`. -/
inductive Instruction
  | Ping
  | Read
  | Write
  | RegWrite
  | Action
  | SyncWrite
  | SyncRead
deriving DecidableEq

/-- Embedding of `impl From<Instruction> for u8`. -/
def Instruction.toU8 : Instruction → Nat
  | Instruction.Ping => 1
  | Instruction.Read => 2
  | Instruction.Write => 3
  | Instruction.RegWrite => 4
  | Instruction.Action => 5
  | Instruction.SyncWrite => 0x83
  | Instruction.SyncRead => 0x82

/-- Embedding of `struct InstructionPacket`. -/
structure InstructionPacket where
  id : Nat
  length : Nat
  instruction : Nat
  parameters : List Nat
  checksum : Nat
deriving DecidableEq

/-- Embedding of `InstructionPacket::new` (lines 71-82): parameters are the
hardcoded empty vector (`// TODO: add parameters`); the checksum is computed
from the fields at construction. -/
def InstructionPacket.new (id length instruction : Nat) : InstructionPacket :=
  let parameters : List Nat := []
  { id := id
    length := length
    instruction := instruction
    checksum := compute_checksum id length instruction parameters
    parameters := parameters }

/-- Embedding of `InstructionPacket::get_total_packet_length` (lines 84-87). -/
def InstructionPacket.get_total_packet_length (p : InstructionPacket) : Nat :=
  p.length + 4

/-- Embedding of `InstructionPacket::as_bytes` (lines 89-100): build the
five leading bytes, extend with the parameters, push the checksum. -/
def InstructionPacket.as_bytes (p : InstructionPacket) : List Nat :=
  let bytes : List Nat := [0xFF, 0xFF, p.id, p.length, p.instruction]
  let bytes := bytes ++ p.parameters
  bytes ++ [p.checksum]

/-- Embedding of `struct StatusPacket`. -/
structure StatusPacket where
  id : Nat
  length : Nat
  error : Nat
  params : List Nat
  checksum : Nat
deriving DecidableEq

/-- Embedding of `StatusPacket::new` (lines 113-126): the two `assert!`
calls abort the process on a bad header or a checksum mismatch; the aborts
are the `Except.error` branch. -/
def StatusPacket.new (header : List Nat) (id length error : Nat)
    (params : List Nat) (checksum : Nat) : Except String StatusPacket :=
  if header = [0xFF, 0xFF] then
    let computed_checksum := compute_checksum id length error params
    if checksum = computed_checksum then
      Except.ok { id := id, length := length, error := error,
                  params := params, checksum := checksum }
    else
      Except.error "assertion failed: checksum == computed_checksum"
  else
    Except.error "assertion failed: header == [0xFF, 0xFF]"

/-- Embedding of `enum Endianness`. -/
inductive Endianness
  | Little
  | Big
deriving DecidableEq

/-- Embedding of `enum TxResult`. -/
inductive TxResult
  | Success
  | PortBusy
  | TxFail
  | TxError
  | NotAvailable
deriving DecidableEq

/-- Embedding of `enum RxResult`. -/
inductive RxResult
  | Success (packet : Option StatusPacket)
  | PortBusy
  | RxFail
  | RxWaiting
  | RxTimeout
  | RxCorrupt
  | NotAvailable
deriving DecidableEq

/-- Modelled from the spec: the missing `crate::serial::Serial` transport
(its source file is not part of the packet layer sources).  Per the spec's
Transport contract, `readExact` and `writeAll` are blocking and exact:
either all requested bytes are delivered/written or an error is raised; no
short silent reads.  The state records the bytes still available to read,
whether writes succeed, the log of bytes written so far, and how many read
calls have been performed. -/
structure Serial where
  readable : List Nat
  writeOk : Bool
  written : List Nat
  readCalls : Nat
deriving DecidableEq

/-- Modelled from the spec: `readExact(count) -> bytes | IoError |
TimeoutError`; delivers exactly `n` bytes from the head of the stream or
fails when fewer are available. -/
def Serial.read_exact (s : Serial) (n : Nat) : Except Unit (List Nat × Serial) :=
  if n ≤ s.readable.length then
    Except.ok (s.readable.take n,
      { readable := s.readable.drop n
        writeOk := s.writeOk
        written := s.written
        readCalls := s.readCalls + 1 })
  else
    Except.error ()

/-- Modelled from the spec: `writeAll(bytes) -> () | IoError`; appends the
bytes to the write log when the port accepts writes, fails otherwise. -/
def Serial.write (s : Serial) (bytes : List Nat) : Except Unit Serial :=
  if s.writeOk then
    Except.ok { readable := s.readable
                writeOk := s.writeOk
                written := s.written ++ bytes
                readCalls := s.readCalls }
  else
    Except.error ()

/-- Embedding of `struct PacketHandler` (endianness plus the owned port). -/
structure PacketHandler where
  endianness : Endianness
  port : Serial
deriving DecidableEq

/-- Embedding of `PacketHandler::tx_packet` (lines 185-193): frames whose
total length exceeds 250 are rejected with `TxError` before the port is
touched; otherwise the serialized bytes are written, a write error mapping
to `TxFail`. -/
def PacketHandler.tx_packet (h : PacketHandler) (packet : InstructionPacket) :
    TxResult × PacketHandler :=
  if packet.get_total_packet_length > 250 then
    (TxResult.TxError, h)
  else
    match h.port.write packet.as_bytes with
    | Except.ok port => (TxResult.Success, { endianness := h.endianness, port := port })
    | Except.error _ => (TxResult.TxFail, h)

/-- Embedding of `PacketHandler::rx_packet` (lines 195-223).  Every
`.expect(msg)` and `assert!` in the source aborts the process; those aborts
are the `Except.error` branch here.  The parameter read is the source's
`Vec::with_capacity(param_len)` followed by `read_exact(&mut params)`: the
vector has length 0 regardless of its capacity, so the read requests zero
bytes and `params` stays empty. -/
def PacketHandler.rx_packet (h : PacketHandler) : Except String (RxResult × PacketHandler) :=
  match h.port.read_exact 2 with
  | Except.error _ => Except.error "reading header failed"
  | Except.ok (header, port1) =>
    if header = [0xFF, 0xFF] then
      match port1.read_exact 3 with
      | Except.error _ => Except.error "reading packet contents failed"
      | Except.ok (packet, port2) =>
        match port2.read_exact 0 with
        | Except.error _ => Except.error "reading param contents failed"
        | Except.ok (params, port3) =>
          match port3.read_exact 1 with
          | Except.error _ => Except.error "reading checksum contents failed"
          | Except.ok (checksum, port4) =>
            match StatusPacket.new header (packet.getD 0 0) (packet.getD 1 0)
                (packet.getD 2 0) params (checksum.getD 0 0) with
            | Except.error e => Except.error e
            | Except.ok status_packet =>
              Except.ok (RxResult.Success (some status_packet),
                { endianness := h.endianness, port := port4 })
    else
      Except.error "assertion failed: header == [0xFF, 0xFF]"

/-- Embedding of `PacketHandler::tx_rx_packet` (lines 172-183): any
non-Success transmit result short-circuits to `RxFail`; the broadcast id
0xFE short-circuits to `Success(None)`; otherwise the response is read. -/
def PacketHandler.tx_rx_packet (h : PacketHandler) (packet : InstructionPacket) :
    Except String (RxResult × PacketHandler) :=
  let r := h.tx_packet packet
  if r.1 ≠ TxResult.Success then
    Except.ok (RxResult.RxFail, r.2)
  else if packet.id = 0xFE then
    Except.ok (RxResult.Success none, r.2)
  else
    r.2.rx_packet

/-- Embedding of `PacketHandler::ping` (lines 166-170): a zero-parameter
Ping frame with hardcoded length 2, sent through a full round trip. -/
def PacketHandler.ping (h : PacketHandler) (motor_id : Nat) :
    Except String (RxResult × PacketHandler) :=
  h.tx_rx_packet (InstructionPacket.new motor_id 2 (Instruction.toU8 Instruction.Ping))

/-- Convenience constructor for a concrete handler state: a freshly opened
port with the given receivable byte stream and write behaviour, an empty
write log, and no reads performed yet. -/
def mkHandler (stream : List Nat) (wOk : Bool) : PacketHandler :=
  { endianness := Endianness.Little
    port := { readable := stream, writeOk := wOk, written := [], readCalls := 0 } }

/-- A successful transport write leaves the readable stream and the count of
performed reads unchanged. -/
lemma Serial.write_preserves_reads (s : Serial) (bytes : List Nat) (s' : Serial)
    (hw : s.write bytes = Except.ok s') :
    s'.readCalls = s.readCalls ∧ s'.readable = s.readable := by
  unfold Serial.write at hw
  by_cases hok : s.writeOk
  · simp only [hok, if_true, Except.ok.injEq] at hw
    subst hw
    exact ⟨rfl, rfl⟩
  · simp [hok] at hw

/-- The transmit phase never reads: whatever its outcome, the handler it
returns has the same readable stream and read count as the input handler. -/
lemma tx_packet_preserves_reads (h : PacketHandler) (packet : InstructionPacket) :
    ((h.tx_packet packet).2).port.readCalls = h.port.readCalls ∧
    ((h.tx_packet packet).2).port.readable = h.port.readable := by
  unfold PacketHandler.tx_packet
  split
  · exact ⟨rfl, rfl⟩
  · split
    · rename_i port hw
      exact Serial.write_preserves_reads h.port _ port hw
    · exact ⟨rfl, rfl⟩

/-- Folding the wrapping u16 addition over a list starting from a reduced
accumulator computes the plain sum modulo 2^16. -/
lemma foldl_wrap_eq (l : List Nat) : ∀ a : Nat,
    l.foldl (fun acc p => (acc + p) % 65536) (a % 65536) = (a + l.sum) % 65536 := by
  induction l with
  | nil => intro a; simp
  | cons p t ih =>
    intro a
    have h1 : (a % 65536 + p) % 65536 = (a + p) % 65536 := Nat.mod_add_mod a 65536 p
    simp only [List.foldl_cons, List.sum_cons, h1, ih (a + p)]
    ring_nf

/-- Masking a 16-bit complement to its low byte is complementing the low
byte. -/
lemma mask_xor_low_byte (s : Nat) : (65535 ^^^ s) &&& 255 = 255 ^^^ (s % 256) := by
  have h8 : (255 : Nat) = 2 ^ 8 - 1 := by norm_num
  have h256 : (256 : Nat) = 2 ^ 8 := by norm_num
  have h16 : (65535 : Nat) = 2 ^ 16 - 1 := by norm_num
  apply Nat.eq_of_testBit_eq
  intro i
  rw [h8, h16, h256, Nat.testBit_land, Nat.testBit_xor, Nat.testBit_xor,
    Nat.testBit_two_pow_sub_one, Nat.testBit_two_pow_sub_one, Nat.testBit_mod_two_pow]
  rcases Nat.lt_or_ge i 8 with h | h
  · simp [h, show i < 16 by omega]
  · simp [show ¬ i < 8 by omega]

/-- Complementing a byte value is subtracting it from 255. -/
lemma xor_byte_eq_sub : ∀ r < 256, 255 ^^^ r = 255 - r := by decide

/-- A list of bytes of length at most 244 sums to less than 62476. -/
lemma byte_list_sum_le (l : List Nat) (hb : ∀ p ∈ l, p < 256) :
    l.sum ≤ l.length * 255 := by
  induction l with
  | nil => simp
  | cons p t ih =>
    simp only [List.sum_cons, List.length_cons]
    have hp : p ≤ 255 := Nat.lt_succ_iff.mp (hb p (by simp))
    have ht : t.sum ≤ t.length * 255 := ih (fun q hq => hb q (by simp [hq]))
    calc p + t.sum ≤ 255 + t.length * 255 := Nat.add_le_add hp ht
    _ = (t.length + 1) * 255 := by ring

/-- Claim C1.  The claim says `rx_packet` reads exactly `length − 2`
parameter bytes and validates the checksum over them; the code instead
passes `read_exact` an empty vector (`Vec::with_capacity` does not set the
length), so it reads zero parameter bytes and validates the checksum over
an empty parameter list.  On the wire-valid status stream
`[0xFF,0xFF,0x01,0x04,0x00,0xAA,0xBB,0x95]` — whose checksum byte 0x95 is
exactly `compute_checksum` over the `length − 2 = 2` parameter bytes
`[0xAA,0xBB]`, as the first conjunct certifies — the code consumes no
parameter bytes, takes 0xAA as the checksum byte, and aborts the process on
the resulting mismatch instead of producing the parsed frame. -/
theorem c1_parse_drops_parameter_bytes :
    compute_checksum 1 4 0 [0xAA, 0xBB] = 0x95 ∧
    (mkHandler [0xFF, 0xFF, 0x01, 0x04, 0x00, 0xAA, 0xBB, 0x95] true).rx_packet
      = Except.error "assertion failed: checksum == computed_checksum" := by
  exact ⟨rfl, rfl⟩

/-- Claim C2.  The claim says the packet layer never terminates the process
and reports any short read as Corrupt.  The code calls
`.expect("reading header failed")` on the header read: with only one byte
available (a short read), `rx_packet` aborts the process with that panic
message instead of returning any outcome value such as `RxCorrupt`. -/
theorem c2_short_read_aborts :
    (mkHandler [0xFF] true).rx_packet = Except.error "reading header failed" := by
  exact rfl

/-- Claim C3.  The claim says a stream whose first two bytes are not
`0xFF 0xFF` yields the Corrupt outcome without terminating the process.
The code instead executes `assert!(header == [0xFF, 0xFF])`, aborting the
process on the stream starting `0x12 0x34`. -/
theorem c3_bad_header_aborts :
    (mkHandler [0x12, 0x34] true).rx_packet
      = Except.error "assertion failed: header == [0xFF, 0xFF]" := by
  exact rfl

/-- Claim C4.  The claim says a checksum mismatch yields the Corrupt
outcome.  On the claim's own example stream `[0xFF,0xFF,0x01,0x02,0x00,0xFD]`
the recomputed checksum is 0xFC (first conjunct), and the code's
`assert!(checksum == computed_checksum)` in `StatusPacket::new` aborts the
process on the mismatch instead of returning `RxCorrupt`. -/
theorem c4_checksum_mismatch_aborts :
    compute_checksum 1 2 0 [] = 0xFC ∧
    (mkHandler [0xFF, 0xFF, 0x01, 0x02, 0x00, 0xFD] true).rx_packet
      = Except.error "assertion failed: checksum == computed_checksum" := by
  exact ⟨rfl, rfl⟩

/-- Claim C5, counterexample.  The claim locates the oversize failure at
construction time, determined by parameter count > 244, and says it never
happens at transmission time.  The packet built by
`InstructionPacket.new 1 247 1` has zero parameters (count ≤ 244) — note
construction is total and cannot fail — yet the transmit phase itself
rejects it with `TxError` because its total length 247 + 4 exceeds 250. -/
theorem c5_counterexample :
    (InstructionPacket.new 1 247 1).parameters.length ≤ 244 ∧
    ((mkHandler [] true).tx_packet (InstructionPacket.new 1 247 1)).1 = TxResult.TxError := by
  exact ⟨by decide, rfl⟩

/-- Claim C5, amended.  `InstructionPacket::new` never fails (it carries no
parameters); the oversize check lives in `tx_packet`, at transmission time:
`tx_packet` returns `TxError` exactly when the frame's total length
`length + 4` exceeds 250, and in that case it returns before any bytes
reach the transport, leaving the handler unchanged. -/
theorem c5_oversize_checked_at_tx (h : PacketHandler) (packet : InstructionPacket) :
    ((h.tx_packet packet).1 = TxResult.TxError ↔ packet.get_total_packet_length > 250) ∧
    (packet.get_total_packet_length > 250 → h.tx_packet packet = (TxResult.TxError, h)) := by
  unfold PacketHandler.tx_packet
  by_cases hlen : packet.get_total_packet_length > 250
  · simp [hlen]
  · simp only [hlen, if_false, iff_false, false_implies, and_true]
    cases hw : h.port.write packet.as_bytes <;> simp [hw]

/-- Witness for the amended claim C5 at a concrete oversize packet: the
frame of total length 251 is rejected with `TxError` and the handler state
is untouched. -/
theorem c5_oversize_checked_at_tx_witness :
    (mkHandler [] true).tx_packet (InstructionPacket.new 1 247 1)
      = (TxResult.TxError, mkHandler [] true) :=
  (c5_oversize_checked_at_tx (mkHandler [] true) (InstructionPacket.new 1 247 1)).2 (by decide)

/-- Claim C6.  A round trip addressed to the broadcast id 0xFE (254) whose
transmit phase succeeds returns `Success(None)` and performs zero transport
reads: the handler after the round trip has the same read-call count and
the same untouched readable stream as before.  `ping 254` is the instance
with the zero-parameter Ping frame. -/
theorem c6_broadcast_round_trip (h : PacketHandler) (packet : InstructionPacket)
    (hid : packet.id = 0xFE) (htx : (h.tx_packet packet).1 = TxResult.Success) :
    h.tx_rx_packet packet = Except.ok (RxResult.Success none, (h.tx_packet packet).2) ∧
    ((h.tx_packet packet).2).port.readCalls = h.port.readCalls ∧
    ((h.tx_packet packet).2).port.readable = h.port.readable := by
  refine ⟨?_, (tx_packet_preserves_reads h packet).1, (tx_packet_preserves_reads h packet).2⟩
  unfold PacketHandler.tx_rx_packet
  simp [htx, hid]

/-- Witness for claim C6: a broadcast ping on a fresh writable handler
returns `Success(None)` with the read count and readable stream unchanged. -/
theorem c6_broadcast_round_trip_witness :
    (mkHandler [] true).ping 0xFE
      = Except.ok (RxResult.Success none,
          ((mkHandler [] true).tx_packet
            (InstructionPacket.new 0xFE 2 (Instruction.toU8 Instruction.Ping))).2) ∧
    (((mkHandler [] true).tx_packet
        (InstructionPacket.new 0xFE 2 (Instruction.toU8 Instruction.Ping))).2).port.readCalls
      = (mkHandler [] true).port.readCalls ∧
    (((mkHandler [] true).tx_packet
        (InstructionPacket.new 0xFE 2 (Instruction.toU8 Instruction.Ping))).2).port.readable
      = (mkHandler [] true).port.readable :=
  c6_broadcast_round_trip (mkHandler [] true)
    (InstructionPacket.new 0xFE 2 (Instruction.toU8 Instruction.Ping)) rfl rfl

/-- Claim C7.  Serialization emits exactly
`[0xFF, 0xFF, id, length, instruction] ++ parameters ++ [checksum]` for
every packet, and the Ping frame for device 1 (length 2, zero parameters)
serializes to `[0xFF,0xFF,0x01,0x02,0x01,0xFB]`, its checksum being 0xFB. -/
theorem c7_serialize_layout :
    (∀ p : InstructionPacket,
      p.as_bytes = [0xFF, 0xFF, p.id, p.length, p.instruction] ++ p.parameters ++ [p.checksum]) ∧
    (InstructionPacket.new 1 2 (Instruction.toU8 Instruction.Ping)).as_bytes
      = [0xFF, 0xFF, 0x01, 0x02, 0x01, 0xFB] ∧
    (InstructionPacket.new 1 2 (Instruction.toU8 Instruction.Ping)).length = 2 ∧
    (InstructionPacket.new 1 2 (Instruction.toU8 Instruction.Ping)).checksum = 0xFB := by
  refine ⟨fun p => ?_, rfl, rfl, rfl⟩
  simp [InstructionPacket.as_bytes]

/-- Claim C8.  With all field bytes below 256 and at most 244 parameters,
the wrapping 16-bit accumulation never overflows, so `compute_checksum` is
exactly the claimed `~(id + length + instruction + Σ parameters) & 0xFF`
(16-bit complement of the plain sum, masked to the low byte), which equals
255 minus the low byte of the sum. -/
theorem c8_checksum_formula (id length instruction : Nat) (parameters : List Nat)
    (hid : id < 256) (hlen : length < 256) (hin : instruction < 256)
    (hp : ∀ p ∈ parameters, p < 256) (hcount : parameters.length ≤ 244) :
    compute_checksum id length instruction parameters
      = (65535 ^^^ (id + length + instruction + parameters.sum)) &&& 0xff ∧
    compute_checksum id length instruction parameters
      = 255 - (id + length + instruction + parameters.sum) % 256 := by
  have hsum : parameters.sum ≤ 244 * 255 :=
    le_trans (byte_list_sum_le parameters hp) (Nat.mul_le_mul_right 255 hcount)
  have hs : id + length + instruction + parameters.sum < 65536 := by omega
  have key : compute_checksum id length instruction parameters
      = (65535 ^^^ (id + length + instruction + parameters.sum)) &&& 0xff := by
    show (65535 ^^^ (parameters.foldl (fun acc param => (acc + param) % 65536)
        ((((0 + id) % 65536 + length) % 65536 + instruction) % 65536))) &&& 0xff = _
    rw [show ((((0 + id) % 65536 + length) % 65536 + instruction) % 65536)
        = (id + length + instruction) % 65536 by omega]
    rw [foldl_wrap_eq parameters (id + length + instruction)]
    rw [Nat.mod_eq_of_lt hs]
  refine ⟨key, ?_⟩
  rw [key]
  have h255 : (0xff : Nat) = 255 := rfl
  rw [h255, mask_xor_low_byte,
    xor_byte_eq_sub ((id + length + instruction + parameters.sum) % 256)
      (Nat.mod_lt _ (by norm_num))]

/-- Witness for claim C8 at a concrete frame (id 5, length 7, instruction
2, parameters 16 and 32). -/
theorem c8_checksum_formula_witness :
    compute_checksum 5 7 2 [16, 32] = (65535 ^^^ (5 + 7 + 2 + [16, 32].sum)) &&& 0xff ∧
    compute_checksum 5 7 2 [16, 32] = 255 - (5 + 7 + 2 + [16, 32].sum) % 256 :=
  c8_checksum_formula 5 7 2 [16, 32] (by decide) (by decide) (by decide)
    (by decide) (by decide)

/-- Claim C9, counterexample.  The claim's invariant
`length = parameterCount + 2` does not hold at construction: `new` takes
the length from the caller and always attaches an empty parameter list, so
`InstructionPacket.new 1 5 1` has length 5 while its parameter count plus
two is 2. -/
theorem c9_counterexample :
    (InstructionPacket.new 1 5 1).length ≠ (InstructionPacket.new 1 5 1).parameters.length + 2 := by
  decide

/-- Claim C9, amended.  At construction the checksum invariant holds:
every packet built by `new` satisfies
`checksum = compute_checksum id length instruction parameters` (and its
parameter list is empty, so the checksum is fixed by the constructor
arguments).  The length field is caller-supplied rather than derived, so
`length = parameterCount + 2` holds only when the caller passes it that
way, as `ping` does with its hardcoded length 2. -/
theorem c9_checksum_invariant :
    (∀ id length instruction : Nat,
      (InstructionPacket.new id length instruction).checksum
        = compute_checksum id length instruction
            (InstructionPacket.new id length instruction).parameters ∧
      (InstructionPacket.new id length instruction).parameters = []) ∧
    (∀ id : Nat,
      (InstructionPacket.new id 2 (Instruction.toU8 Instruction.Ping)).length
        = (InstructionPacket.new id 2 (Instruction.toU8 Instruction.Ping)).parameters.length + 2) :=
  ⟨fun _ _ _ => ⟨rfl, rfl⟩, fun _ => rfl⟩

/-- Claim C10.  Whenever the transmit phase of a round trip returns any
result other than `Success` — the code can produce `TxError` (oversize) or
`TxFail` (write error) — `tx_rx_packet` returns the single value `RxFail`
and attempts no read: the read-call count and the readable stream are
unchanged.  All transmit failure causes therefore collapse into the one
`RxFail` round-trip outcome. -/
theorem c10_tx_failure_collapses_to_rxfail (h : PacketHandler) (packet : InstructionPacket)
    (hne : (h.tx_packet packet).1 ≠ TxResult.Success) :
    h.tx_rx_packet packet = Except.ok (RxResult.RxFail, (h.tx_packet packet).2) ∧
    ((h.tx_packet packet).2).port.readCalls = h.port.readCalls ∧
    ((h.tx_packet packet).2).port.readable = h.port.readable := by
  refine ⟨?_, (tx_packet_preserves_reads h packet).1, (tx_packet_preserves_reads h packet).2⟩
  unfold PacketHandler.tx_rx_packet
  simp [hne]

/-- Witness for claim C10: on a handler whose port rejects writes, the
round trip for a Ping frame returns `RxFail` with the handler unchanged. -/
theorem c10_tx_failure_collapses_to_rxfail_witness :
    (mkHandler [] false).tx_rx_packet (InstructionPacket.new 1 2 (Instruction.toU8 Instruction.Ping))
      = Except.ok (RxResult.RxFail,
          ((mkHandler [] false).tx_packet
            (InstructionPacket.new 1 2 (Instruction.toU8 Instruction.Ping))).2) ∧
    (((mkHandler [] false).tx_packet
        (InstructionPacket.new 1 2 (Instruction.toU8 Instruction.Ping))).2).port.readCalls
      = (mkHandler [] false).port.readCalls ∧
    (((mkHandler [] false).tx_packet
        (InstructionPacket.new 1 2 (Instruction.toU8 Instruction.Ping))).2).port.readable
      = (mkHandler [] false).port.readable :=
  c10_tx_failure_collapses_to_rxfail (mkHandler [] false)
    (InstructionPacket.new 1 2 (Instruction.toU8 Instruction.Ping)) (by decide)
